import Mathlib

/- Shallow embedding of the momentum real-time dispatch-and-processing
   pipeline: the strategy registry in
   src/app/application/services/strategy_service.py, the persistence
   operations it relies on in src/app/infrastructure/persistence/sqlite.py,
   and the signal worker pool in src/app/services/signal_processor.py.

   Timestamps stored in rows are modelled as natural numbers, their point on
   the UTC timeline at second resolution: the signal table stores them as
   ISO-8601 text of one uniform format and compares that text
   lexicographically, which agrees with chronological order, and the registry
   operations never compare them at all. The dispatch path is the one place
   datetime objects are order-compared, and there Python distinguishes
   timezone-naive from timezone-aware values and raises TypeError across the
   two kinds, so that path uses the PyDatetime type below, a timeline value
   paired with its awareness. Error messages raised by the Python code are
   modelled as values of an error type, since only which error is raised
   matters to the spec, not the message text. -/

/-- Python str.strip with no argument: remove leading and trailing
whitespace. Written over the character list so that it evaluates inside the
kernel. -/
def pyStrip (s : String) : String :=
  String.mk (((s.data.dropWhile Char.isWhitespace).reverse.dropWhile
    Char.isWhitespace).reverse)

/-- Strategy row, mirroring app.domain.models.Strategy. -/
structure Strategy where
  id : Nat
  name : String
  channel_identifier : String
  channel_id : Option String
  channel_title : Option String
  channel_linked_at : Option Nat
  is_active : Bool
  is_paused : Bool
  created_at : Nat
  updated_at : Nat
deriving DecidableEq

/-- Result of TelegramService.resolve_channel: canonical channel id and title. -/
structure ChannelInfo where
  channel_id : String
  title : Option String
deriving DecidableEq

/-- The errors the registry operations raise (each a ValueError in the code). -/
inductive RegErr where
  | emptyName
  | emptyIdentifier
  | notFound
  | admissionCap
  | resumeInactive
  | gateway (msg : String)
deriving DecidableEq

/-- Optional-field updates accepted by SQLitePersistence.update_strategy; a
none field is left untouched, exactly like the keyword arguments left at
None in the Python method. -/
structure StrategyUpdate where
  name : Option String := none
  channel_identifier : Option String := none
  channel_id : Option String := none
  channel_title : Option String := none
  channel_linked_at : Option Nat := none
  is_active : Option Bool := none
  is_paused : Option Bool := none
deriving DecidableEq

/-- Whether update_strategy received at least one field to update, mirroring
the updates list being non-empty. -/
def StrategyUpdate.hasUpdates (u : StrategyUpdate) : Bool :=
  u.name.isSome || u.channel_identifier.isSome || u.channel_id.isSome ||
    u.channel_title.isSome || u.channel_linked_at.isSome || u.is_active.isSome ||
    u.is_paused.isSome

/-- Apply one UPDATE statement of SQLitePersistence.update_strategy to a row,
stamping updated_at with the current time. -/
def applyStrategyUpdate (r : Strategy) (u : StrategyUpdate) (now : Nat) : Strategy :=
  { r with
    name := u.name.getD r.name
    channel_identifier := u.channel_identifier.getD r.channel_identifier
    channel_id := match u.channel_id with
      | none => r.channel_id
      | some c => some c
    channel_title := match u.channel_title with
      | none => r.channel_title
      | some c => some c
    channel_linked_at := match u.channel_linked_at with
      | none => r.channel_linked_at
      | some t => some t
    is_active := u.is_active.getD r.is_active
    is_paused := u.is_paused.getD r.is_paused
    updated_at := now }

/-- SQLitePersistence.update_strategy: run the UPDATE over the rows with the
given id (the id is a primary key, so at most one row matches), then select
the row back; a missing row raises after the no-op UPDATE. -/
def update_strategy (store : List Strategy) (sid : Nat) (u : StrategyUpdate)
    (now : Nat) : Except RegErr (List Strategy × Strategy) :=
  let store1 := if u.hasUpdates then
      store.map (fun r => if r.id == sid then applyStrategyUpdate r u now else r)
    else store
  match store1.find? (fun r => r.id == sid) with
  | none => .error .notFound
  | some r => .ok (store1, r)

/-- SQLitePersistence.create_strategy: insert a fresh row with is_paused = 0,
created_at = updated_at = now, and channel_linked_at defaulting to now when a
channel id is present but no explicit link time was given. -/
def create_strategy_row (store : List Strategy) (newId : Nat)
    (name channel_identifier : String) (channel_id channel_title : Option String)
    (channel_linked_at : Option Nat) (is_active : Bool) (now : Nat) :
    List Strategy × Strategy :=
  let linked := match channel_linked_at with
    | some t => some t
    | none => if channel_id.isSome then some now else none
  let s : Strategy :=
    ⟨newId, name, channel_identifier, channel_id, channel_title, linked,
      is_active, false, now, now⟩
  (store ++ [s], s)

/-- In-memory service state: the cached strategy dict (as its ordered entry
list), the durable store table, the next AUTOINCREMENT id, and the
initialized_at timestamp. The channel index is derived deterministically from
the cache by rebuild_channel_index on every cache change, so it is not stored
separately. -/
structure RegistryState where
  strategies : List Strategy
  store : List Strategy
  nextId : Nat
  initialized_at : Nat
deriving DecidableEq

/-- StrategyService maximum of simultaneously active strategies. -/
def MAX_ACTIVE_STRATEGIES : Nat := 5

/-- StrategyService store_strategy_locked: dict assignment keyed by id
followed by the deterministic index rebuild. -/
def store_strategy_locked (cache : List Strategy) (s : Strategy) : List Strategy :=
  if cache.any (fun r => r.id == s.id) then
    cache.map (fun r => if r.id == s.id then s else r)
  else cache ++ [s]

/-- StrategyService count_active_locked: strategies that are active and not
paused in the in-memory cache. -/
def count_active_locked (st : RegistryState) : Nat :=
  (st.strategies.filter (fun s => s.is_active && !s.is_paused)).length

/-- StrategyService require_strategy_locked: cache hit, or back-fill from the
store, or a not-found error; the returned state carries the possible
back-fill of the cache. -/
def require_strategy_locked (st : RegistryState) (sid : Nat) :
    RegistryState × Except RegErr Strategy :=
  match st.strategies.find? (fun r => r.id == sid) with
  | some s => (st, .ok s)
  | none =>
    match st.store.find? (fun r => r.id == sid) with
    | none => (st, .error .notFound)
    | some s => ({ st with strategies := store_strategy_locked st.strategies s }, .ok s)

/-- StrategyService.create_strategy. The channel resolution outcome of the
Telegram gateway is passed in as a value; linkNow is the clock reading taken
for channel_linked_at before the lock is entered, now the clock reading the
store takes when inserting (the code reads the clock twice). -/
def create_strategy (st : RegistryState) (name channel_identifier : String)
    (activate : Bool) (resolve : Except String ChannelInfo) (linkNow now : Nat) :
    RegistryState × Option RegErr :=
  let clean_name := pyStrip name
  let clean_identifier := pyStrip channel_identifier
  if clean_name = "" then (st, some .emptyName)
  else if clean_identifier = "" then (st, some .emptyIdentifier)
  else match resolve with
  | .error e => (st, some (.gateway e))
  | .ok info =>
    if activate ∧ MAX_ACTIVE_STRATEGIES ≤ count_active_locked st then
      (st, some .admissionCap)
    else
      let created := create_strategy_row st.store st.nextId clean_name
        clean_identifier (some info.channel_id) info.title (some linkNow)
        activate now
      ({ st with store := created.1,
                 strategies := store_strategy_locked st.strategies created.2,
                 nextId := st.nextId + 1 }, none)

/-- StrategyService.rename_strategy. -/
def rename_strategy (st : RegistryState) (sid : Nat) (name : String) (now : Nat) :
    RegistryState × Option RegErr :=
  let clean_name := pyStrip name
  if clean_name = "" then (st, some .emptyName)
  else
    let req := require_strategy_locked st sid
    match req.2 with
    | .error e => (req.1, some e)
    | .ok s =>
      match update_strategy req.1.store s.id { name := some clean_name } now with
      | .error e => (req.1, some e)
      | .ok r =>
        ({ req.1 with store := r.1,
                      strategies := store_strategy_locked req.1.strategies r.2 }, none)

/-- StrategyService.assign_channel; linkNow and now play the same roles as in
create_strategy. -/
def assign_channel (st : RegistryState) (sid : Nat) (channel_identifier : String)
    (resolve : Except String ChannelInfo) (linkNow now : Nat) :
    RegistryState × Option RegErr :=
  let clean_identifier := pyStrip channel_identifier
  if clean_identifier = "" then (st, some .emptyIdentifier)
  else match resolve with
  | .error e => (st, some (.gateway e))
  | .ok info =>
    let req := require_strategy_locked st sid
    match req.2 with
    | .error e => (req.1, some e)
    | .ok s =>
      match update_strategy req.1.store s.id
          { channel_identifier := some clean_identifier
            channel_id := some info.channel_id
            channel_title := info.title
            channel_linked_at := some linkNow } now with
      | .error e => (req.1, some e)
      | .ok r =>
        ({ req.1 with store := r.1,
                      strategies := store_strategy_locked req.1.strategies r.2 }, none)

/-- StrategyService.delete_strategy: require, delete from store, pop from the
cache, rebuild the index. -/
def delete_strategy (st : RegistryState) (sid : Nat) :
    RegistryState × Option RegErr :=
  let req := require_strategy_locked st sid
  match req.2 with
  | .error e => (req.1, some e)
  | .ok _ =>
    ({ req.1 with store := req.1.store.filter (fun r => !(r.id == sid)),
                  strategies := req.1.strategies.filter (fun r => !(r.id == sid)) },
      none)

/-- StrategyService.activate_strategy: no-op when already active and
unpaused; the admission cap is re-checked only when the strategy is inactive;
otherwise sets is_active and clears is_paused. -/
def activate_strategy (st : RegistryState) (sid : Nat) (now : Nat) :
    RegistryState × Option RegErr :=
  let req := require_strategy_locked st sid
  match req.2 with
  | .error e => (req.1, some e)
  | .ok s =>
    if s.is_active && !s.is_paused then (req.1, none)
    else if !s.is_active ∧ MAX_ACTIVE_STRATEGIES ≤ count_active_locked req.1 then
      (req.1, some .admissionCap)
    else
      match update_strategy req.1.store s.id
          { is_active := some true, is_paused := some false } now with
      | .error e => (req.1, some e)
      | .ok r =>
        ({ req.1 with store := r.1,
                      strategies := store_strategy_locked req.1.strategies r.2 }, none)

/-- StrategyService.deactivate_strategy. -/
def deactivate_strategy (st : RegistryState) (sid : Nat) (now : Nat) :
    RegistryState × Option RegErr :=
  let req := require_strategy_locked st sid
  match req.2 with
  | .error e => (req.1, some e)
  | .ok s =>
    if !s.is_active then (req.1, none)
    else
      match update_strategy req.1.store s.id { is_active := some false } now with
      | .error e => (req.1, some e)
      | .ok r =>
        ({ req.1 with store := r.1,
                      strategies := store_strategy_locked req.1.strategies r.2 }, none)

/-- StrategyService.pause_strategy: no activity precondition is checked. -/
def pause_strategy (st : RegistryState) (sid : Nat) (now : Nat) :
    RegistryState × Option RegErr :=
  let req := require_strategy_locked st sid
  match req.2 with
  | .error e => (req.1, some e)
  | .ok s =>
    if s.is_paused then (req.1, none)
    else
      match update_strategy req.1.store s.id { is_paused := some true } now with
      | .error e => (req.1, some e)
      | .ok r =>
        ({ req.1 with store := r.1,
                      strategies := store_strategy_locked req.1.strategies r.2 }, none)

/-- StrategyService.resume_strategy: requires the strategy to be active,
no-ops when not paused, and re-checks the admission cap before unpausing. -/
def resume_strategy (st : RegistryState) (sid : Nat) (now : Nat) :
    RegistryState × Option RegErr :=
  let req := require_strategy_locked st sid
  match req.2 with
  | .error e => (req.1, some e)
  | .ok s =>
    if !s.is_active then (req.1, some .resumeInactive)
    else if !s.is_paused then (req.1, none)
    else if MAX_ACTIVE_STRATEGIES ≤ count_active_locked req.1 then
      (req.1, some .admissionCap)
    else
      match update_strategy req.1.store s.id { is_paused := some false } now with
      | .error e => (req.1, some e)
      | .ok r =>
        ({ req.1 with store := r.1,
                      strategies := store_strategy_locked req.1.strategies r.2 }, none)

/-- One registry operation together with the ambient inputs the code reads
while performing it (gateway resolution outcome, clock readings). -/
inductive RegOp where
  | create (name channel_identifier : String) (activate : Bool)
      (resolve : Except String ChannelInfo) (linkNow now : Nat)
  | rename (sid : Nat) (name : String) (now : Nat)
  | assign (sid : Nat) (channel_identifier : String)
      (resolve : Except String ChannelInfo) (linkNow now : Nat)
  | activate (sid : Nat) (now : Nat)
  | deactivate (sid : Nat) (now : Nat)
  | pause (sid : Nat) (now : Nat)
  | resume (sid : Nat) (now : Nat)
  | delete (sid : Nat)

/-- Dispatch one operation to its implementation. -/
def applyOp (st : RegistryState) : RegOp → RegistryState × Option RegErr
  | .create name ident activate resolve linkNow now =>
      create_strategy st name ident activate resolve linkNow now
  | .rename sid name now => rename_strategy st sid name now
  | .assign sid ident resolve linkNow now =>
      assign_channel st sid ident resolve linkNow now
  | .activate sid now => activate_strategy st sid now
  | .deactivate sid now => deactivate_strategy st sid now
  | .pause sid now => pause_strategy st sid now
  | .resume sid now => resume_strategy st sid now
  | .delete sid => delete_strategy st sid

/-- Run a sequence of operations; a raising operation leaves the state it
reached when it raised. -/
def runOps (st : RegistryState) (ops : List RegOp) : RegistryState :=
  ops.foldl (fun s op => (applyOp s op).1) st

/-- The exception an order comparison between a timezone-naive and a
timezone-aware Python datetime raises. -/
inductive PyExc where
  | typeError
deriving DecidableEq

/-- A Python datetime as the dispatch path sees it: its point on the UTC
timeline plus whether it carries timezone information. Two datetimes compare
by value when their awareness agrees; comparing a naive one with an aware
one raises TypeError. -/
structure PyDatetime where
  val : Nat
  aware : Bool
deriving DecidableEq

/-- The Python order comparison on datetimes: a value comparison when both
sides share awareness, a TypeError otherwise. -/
def pyLt (a b : PyDatetime) : Except PyExc Bool :=
  if a.aware = b.aware then .ok (decide (a.val < b.val)) else .error .typeError

/-- Inbound message as StrategyService.handle_incoming_message reads it: the
raw channel id (none also stands for a falsy value), the converted source
message id, the timestamp as parse_timestamp returns it (none when absent or
unparseable, in which case the current naive utcnow is used; fromisoformat
keeps the awareness of the text, the strptime fallback is naive), and the
text. -/
structure IncomingMessage where
  channel_id : Option String
  telegram_id : Int
  created_at : Option PyDatetime
  message : Option String
deriving DecidableEq

/-- SignalJob, mirroring app.services.signal_processor.SignalJob. -/
structure SignalJob where
  strategy_id : Nat
  channel_id : String
  telegram_message_id : Int
  raw_message : Option String
  received_at : Nat
deriving DecidableEq

/-- The per-strategy loop at the bottom of handle_incoming_message,
returning the jobs handed to the signal processor before any raise, and the
exception if one was raised. Every strategy in the cache was produced by a
persistence method through row_to_strategy, whose parse_datetime always
returns timezone-aware datetimes, so the threshold (channel_linked_at when
set, created_at otherwise, and never falsy since created_at is a datetime)
is compared as an aware datetime. An exception aborts the loop but the jobs
already enqueued stay enqueued. -/
def dispatchLoop (created : PyDatetime) (raw : Option String)
    (channel_id : String) (telegram_id : Int) :
    List Strategy → List SignalJob × Option PyExc
  | [] => ([], none)
  | s :: rest =>
    if !s.is_active || s.is_paused then
      dispatchLoop created raw channel_id telegram_id rest
    else
      let threshold : PyDatetime := ⟨s.channel_linked_at.getD s.created_at, true⟩
      match pyLt created threshold with
      | .error e => ([], some e)
      | .ok true => dispatchLoop created raw channel_id telegram_id rest
      | .ok false =>
        match raw with
        | none => dispatchLoop created raw channel_id telegram_id rest
        | some m =>
          let res := dispatchLoop created raw channel_id telegram_id rest
          (⟨s.id, channel_id, telegram_id, some m, created.val⟩ :: res.1, res.2)

/-- StrategyService.handle_incoming_message, returning the jobs handed to
the signal processor and the exception the method raised, if any (the caller
in TelegramService swallows it). The channel index lookup followed by the
dict lookups yields exactly the cached strategies whose channel_id equals
the message channel, in cache order, since the index is rebuilt from the
cache after every change. The initialized_at field is compared as a naive
datetime, because the code only ever assigns datetime.utcnow() to it. -/
def handle_incoming_message (st : RegistryState) (now : Nat)
    (msg : IncomingMessage) : List SignalJob × Option PyExc :=
  let cid : Option String := match msg.channel_id with
    | none => none
    | some c => if c = "" then none else some c
  match cid with
  | none => ([], none)
  | some channel_id =>
    if msg.telegram_id ≤ 0 then ([], none)
    else
      let created := msg.created_at.getD ⟨now, false⟩
      match pyLt created ⟨st.initialized_at, false⟩ with
      | .error e => ([], some e)
      | .ok true => ([], none)
      | .ok false =>
        let raw : Option String := match msg.message with
          | none => none
          | some m => if pyStrip m = "" then none else some m
        let candidates := st.strategies.filter
          (fun s => s.channel_id == some channel_id)
        dispatchLoop created raw channel_id msg.telegram_id candidates

/-- A JSON-like value as it appears in a parsed payload. -/
inductive PayloadValue where
  | str (s : String)
  | strList (xs : List String)
deriving DecidableEq

/-- A parsed payload: the key-value mapping stored in parsed_payload. -/
abbrev Payload := List (String × PayloadValue)

/-- StrategySignal row of the strategy_signals table. -/
structure SignalRow where
  id : Nat
  strategy_id : Nat
  channel_id : String
  telegram_message_id : Int
  raw_message : Option String
  parsed_payload : Payload
  status : String
  error : Option String
  received_at : Nat
  processed_at : Nat
deriving DecidableEq

/-- SQLitePersistence.record_signal: INSERT with ON CONFLICT on the unique
key (strategy_id, telegram_message_id), where the conflict branch updates
raw_message, parsed_payload, status, error and processed_at and leaves id,
channel_id and received_at untouched. The UNIQUE constraint keeps at most one
row per key, so updating every matching row is the exact conflict branch. -/
def record_signal (tbl : List SignalRow) (freshId : Nat) (sid : Nat)
    (cid : String) (mid : Int) (raw : Option String) (payload : Payload)
    (status : String) (error : Option String) (receivedAt processedAt : Nat) :
    List SignalRow :=
  if tbl.any (fun r => r.strategy_id == sid && r.telegram_message_id == mid) then
    tbl.map (fun r =>
      if r.strategy_id == sid && r.telegram_message_id == mid then
        { r with raw_message := raw, parsed_payload := payload, status := status,
                 error := error, processed_at := processedAt }
      else r)
  else
    tbl ++ [⟨freshId, sid, cid, mid, raw, payload, status, error, receivedAt,
             processedAt⟩]

/-- SQLitePersistence.purge_signals_older_than: DELETE the rows whose
processed_at is strictly below the cutoff and report how many were
deleted. -/
def purge_signals_older_than (tbl : List SignalRow) (cutoff : Nat) :
    List SignalRow × Nat :=
  (tbl.filter (fun r => !decide (r.processed_at < cutoff)),
    (tbl.filter (fun r => decide (r.processed_at < cutoff))).length)

/-- The fixed fallback payload SignalProcessor builds when the parser
raises. -/
def fallback_payload (err : String) : Payload :=
  [("symbol", .str "NA"), ("action", .str "NONE"), ("entry", .str "NA"),
   ("take_profit", .strList []), ("stop_loss", .str "NA"),
   ("notes", .str "Parser failed"), ("error", .str err)]

/-- SignalProcessor process_job: parse the raw text (an empty string when the
job carries none), fall back to the fixed failed record when the parser
raises, upsert the signal, then purge against the retention cutoff. The
parser is a value of type String to Except, processedAt is the clock reading
taken at the start of the job, cutoff is the clock reading at the purge minus
the retention window. The returned list is the signal table afterwards. -/
def process_job (parse : String → Except String Payload) (tbl : List SignalRow)
    (freshId : Nat) (job : SignalJob) (processedAt cutoff : Nat) :
    List SignalRow :=
  let outcome : String × Option String × Payload :=
    match parse (job.raw_message.getD "") with
    | .ok payload => ("parsed", none, payload)
    | .error e => ("failed", some e, fallback_payload e)
  let tbl1 := record_signal tbl freshId job.strategy_id job.channel_id
    job.telegram_message_id job.raw_message outcome.2.2 outcome.1 outcome.2.1
    job.received_at processedAt
  (purge_signals_older_than tbl1 cutoff).1

/-- Worker pool state: the number of live worker tasks, the shutdown event,
and the queue whose entries are jobs or the shutdown sentinel. -/
structure ProcessorState where
  workers : Nat
  shutdown : Bool
  queue : List (Option SignalJob)
deriving DecidableEq

/-- SignalProcessor.stop: a no-op without workers, otherwise set the shutdown
event, append one sentinel per worker, await the workers and clear them. -/
def stopProcessor (st : ProcessorState) : ProcessorState :=
  if st.workers = 0 then st
  else { st with shutdown := true,
                 queue := st.queue ++ List.replicate st.workers none,
                 workers := 0 }

/-- SignalProcessor.enqueue: drop the job when the shutdown event is set,
otherwise append it to the queue. -/
def enqueueJob (st : ProcessorState) (job : SignalJob) : ProcessorState :=
  if st.shutdown then st else { st with queue := st.queue ++ [some job] }

/-- The loop of one SignalProcessor worker. At the top of each iteration the
code re-reads the shutdown event and exits when it is set; otherwise it takes
the next queue entry, exits on a sentinel, and processes a job. The schedule
shut tells, for each top-of-loop check, whether the shutdown event set by
stop has become visible to this worker at that point, which encodes the
interleaving between the worker and stop. The result lists the jobs this
worker processed, in order. An empty queue means the worker would block in
get, so it processes nothing further. -/
def workerRun (shut : Nat → Bool) : List (Option SignalJob) → Nat → List SignalJob
  | queue, i =>
    if shut i then []
    else
      match queue with
      | [] => []
      | none :: _ => []
      | some j :: rest => j :: workerRun shut rest (i + 1)

/- Shared helper lemmas and concrete fixtures. -/

/-- Finding by id commutes with mapping an id-preserving function. -/
theorem find?_id_of_map (g : Strategy → Strategy) (hg : ∀ r, (g r).id = r.id)
    (l : List Strategy) (sid : Nat) :
    (l.map g).find? (fun r => r.id == sid) =
      (l.find? (fun r => r.id == sid)).map g := by
  rw [List.find?_map]
  have hp : ((fun r => r.id == sid) ∘ g) = (fun r : Strategy => r.id == sid) := by
    funext r
    simp [Function.comp, hg r]
  rw [hp]

/-- A gateway resolution that succeeds with the given canonical id. -/
def okInfo (c : String) : Except String ChannelInfo := .ok ⟨c, none⟩

/-- The freshly initialised registry: empty cache, empty store. -/
def initRegistry : RegistryState := ⟨[], [], 1, 0⟩

/-- Five strategies created active, the first one then paused, and a sixth
created active: the states all satisfy the admission cap. -/
def capTrace : List RegOp :=
  [ .create "a" "i1" true (okInfo "101") 1 1
  , .create "b" "i2" true (okInfo "102") 2 2
  , .create "c" "i3" true (okInfo "103") 3 3
  , .create "d" "i4" true (okInfo "104") 4 4
  , .create "e" "i5" true (okInfo "105") 5 5
  , .pause 1 6
  , .create "f" "i6" true (okInfo "106") 7 7 ]

/-- Claim C1: for every sequence of registry operations starting from a state
satisfying the cap, the number of strategies with is_active and not is_paused
stays at most 5; in particular activate on an active paused strategy never
raises the count above 5. The code refutes this: after the trace above the
count is 5 and strategy 1 is active and paused, activate on it succeeds
without any error yet the count becomes 6, because the admission check in
activate_strategy is guarded by the strategy being inactive. The final
conjunct shows resume on the very same state does enforce the cap, so the
activate path contradicts the intent the rest of the code implements. -/
theorem activate_paused_breaks_admission_cap :
    count_active_locked (runOps initRegistry capTrace) = 5 ∧
    (applyOp (runOps initRegistry capTrace) (RegOp.activate 1 8)).2 = none ∧
    count_active_locked (runOps initRegistry (capTrace ++ [RegOp.activate 1 8])) = 6 ∧
    (applyOp (runOps initRegistry capTrace) (RegOp.resume 1 8)).2 =
      some RegErr.admissionCap := by
  refine ⟨by decide, by decide, by decide, by decide⟩

/-- Job fixtures for the worker pool results. -/
def jobA : SignalJob := ⟨1, "100", 1, some "x", 0⟩

/-- Second job fixture. -/
def jobB : SignalJob := ⟨1, "100", 2, some "y", 0⟩

/-- A worker whose schedule never shows the shutdown event set processes
every job up to the first sentinel: the drain the spec describes. -/
theorem workerRun_no_shutdown_drains (jobs : List SignalJob)
    (rest : List (Option SignalJob)) (i : Nat) :
    workerRun (fun _ => false) (jobs.map some ++ none :: rest) i = jobs := by
  induction jobs generalizing i with
  | nil => simp [workerRun]
  | cons j js ih => simp [workerRun, ih]

/-- Claim C2: every job enqueued before stop began is processed before the
workers exit, because a worker only stops after receiving a sentinel. The
code refutes this: the worker re-reads the shutdown event at the top of each
loop iteration, so with the queue holding jobA, jobB and then the sentinel
stop appended, a worker whose second top-of-loop check already sees the
event set processes only jobA and exits, leaving jobB unprocessed even
though jobB was enqueued before stop began. -/
theorem worker_exits_on_shutdown_flag_dropping_job :
    workerRun (fun i => decide (1 ≤ i)) [some jobA, some jobB, none] 0 = [jobA] := by
  decide

/-- Claim C6: the purge performed after every processed job deletes exactly
the stored rows whose processed_at is strictly older than the cutoff handed
to it (the current time minus the retention window): a row survives exactly
when it was in the table and is not strictly older than the cutoff, and the
reported deletion count accounts for every removed row. -/
theorem purge_removes_exactly_older (tbl : List SignalRow) (cutoff : Nat) :
    (∀ r, r ∈ (purge_signals_older_than tbl cutoff).1 ↔
      r ∈ tbl ∧ ¬ r.processed_at < cutoff) ∧
    (purge_signals_older_than tbl cutoff).1.length +
      (purge_signals_older_than tbl cutoff).2 = tbl.length := by
  constructor
  · intro r
    simp [purge_signals_older_than, List.mem_filter]
  · simp only [purge_signals_older_than]
    induction tbl with
    | nil => simp
    | cons a l ih =>
      by_cases h : a.processed_at < cutoff <;>
        simp [List.filter_cons, h] <;> omega

/-- Claim C7: enqueue called after stop has begun leaves the queue unchanged
and returns without raising: stop sets the shutdown event first, and enqueue
discards the job whenever that event is set. The hypothesis states that the
pool had workers to stop. -/
theorem enqueue_after_stop_discards (st : ProcessorState) (job : SignalJob)
    (h : 0 < st.workers) :
    enqueueJob (stopProcessor st) job = stopProcessor st := by
  have hw : ¬ st.workers = 0 := Nat.pos_iff_ne_zero.mp h
  simp [stopProcessor, enqueueJob, hw]

/-- Witness for C7 at a running pool with two workers and one queued job. -/
theorem enqueue_after_stop_discards_witness :
    0 < (⟨2, false, [some jobA]⟩ : ProcessorState).workers ∧
    enqueueJob (stopProcessor ⟨2, false, [some jobA]⟩) jobB =
      stopProcessor ⟨2, false, [some jobA]⟩ :=
  ⟨by decide, enqueue_after_stop_discards ⟨2, false, [some jobA]⟩ jobB (by decide)⟩

/-- Claim C9: a message with a missing or empty channel id, or with a source
message id of zero or below, is dispatched to no strategy and the call
returns without error: each of the three guards at the top of
handle_incoming_message returns early, before any strategy or timestamp is
consulted, with no job enqueued and nothing raised. -/
theorem dispatch_invalid_message_enqueues_nothing (st : RegistryState) (now : Nat)
    (msg : IncomingMessage)
    (h : msg.channel_id = none ∨ msg.channel_id = some "" ∨ msg.telegram_id ≤ 0) :
    handle_incoming_message st now msg = ([], none) := by
  unfold handle_incoming_message
  rcases h with h | h | h
  · simp [h]
  · simp [h]
  · rcases hc : msg.channel_id with _ | c
    · simp
    · by_cases hce : c = "" <;> simp [hce, h]

/-- Witness for C9: a message with no channel id yields no jobs and no
exception. -/
theorem dispatch_invalid_message_enqueues_nothing_witness :
    handle_incoming_message ⟨[], [], 1, 0⟩ 0 ⟨none, 5, none, none⟩ = ([], none) :=
  dispatch_invalid_message_enqueues_nothing ⟨[], [], 1, 0⟩ 0 ⟨none, 5, none, none⟩
    (Or.inl rfl)

/-- A naive message timestamp never survives the per-strategy loop: every
threshold is timezone-aware, so the first active unpaused candidate raises
TypeError before its enqueue, and candidates before it were skipped; with no
such candidate the loop ends empty-handed. Either way no job is handed to
the processor. -/
theorem dispatchLoop_naive_no_jobs (created : PyDatetime)
    (hn : created.aware = false) (raw : Option String) (channel_id : String)
    (telegram_id : Int) (l : List Strategy) :
    (dispatchLoop created raw channel_id telegram_id l).1 = [] := by
  induction l with
  | nil => rfl
  | cons s rest ih =>
    unfold dispatchLoop
    split
    · exact ih
    · simp [pyLt, hn]

/-- Dispatch never enqueues any job for any state and any message: an aware
message timestamp raises TypeError against the always-naive initialized_at,
and a naive one (including the utcnow fallback) either returns at the
initialized_at guard or raises TypeError against the first aware strategy
threshold, always before an enqueue. -/
theorem dispatch_never_enqueues (st : RegistryState) (now : Nat)
    (msg : IncomingMessage) :
    (handle_incoming_message st now msg).1 = [] := by
  unfold handle_incoming_message
  dsimp only
  split
  · rfl
  · split
    · rfl
    · split
      · rfl
      · rfl
      · next heq =>
        have hn : (msg.created_at.getD ⟨now, false⟩).aware = false := by
          by_contra haw
          simp [pyLt, haw] at heq
        exact dispatchLoop_naive_no_jobs _ hn _ _ _ _

/-- Claim C3: for every inbound message and every strategy subscribed to its
channel, dispatch enqueues no SignalJob for that strategy when the message
timestamp precedes the maximum of the channel_linked_at and created_at of
the strategy. This holds vacuously, and more strongly than stated: the
initialized_at field is always a naive datetime while every cached strategy
threshold is timezone-aware, so every run of the dispatch either returns at
a guard or raises TypeError at one of the two datetime comparisons, and no
job is ever enqueued for any strategy, in particular none for a strategy
whose threshold the message precedes. -/
theorem dispatch_before_max_threshold_never_enqueues (st : RegistryState)
    (now : Nat) (msg : IncomingMessage) (s : Strategy) (d : PyDatetime)
    (hs : s ∈ st.strategies)
    (hts : msg.created_at = some d)
    (hlt : d.val < max (s.channel_linked_at.getD s.created_at) s.created_at) :
    ∀ job ∈ (handle_incoming_message st now msg).1, job.strategy_id ≠ s.id := by
  intro job hjob
  rw [dispatch_never_enqueues] at hjob
  exact absurd hjob (List.not_mem_nil job)

/-- A synced one-strategy registry whose strategy was linked at time 10. -/
def thresholdState : RegistryState :=
  ⟨[⟨1, "a", "i", some "100", none, some 10, true, false, 0, 0⟩],
   [⟨1, "a", "i", some "100", none, some 10, true, false, 0, 0⟩], 2, 0⟩

/-- A message on the channel timestamped (naive) before the link time. -/
def earlyMsg : IncomingMessage := ⟨some "100", 7, some ⟨5, false⟩, some "buy"⟩

/-- Witness for C3: a message at time 5 against a strategy linked at time 10
and created at time 0 is enqueued for no strategy with that id. -/
theorem dispatch_before_max_threshold_never_enqueues_witness :
    (5 : Nat) < max ((some 10 : Option Nat).getD 0) 0 ∧
    ∀ job ∈ (handle_incoming_message thresholdState 0 earlyMsg).1,
      job.strategy_id ≠ 1 :=
  ⟨by decide,
    dispatch_before_max_threshold_never_enqueues thresholdState 0 earlyMsg
      ⟨1, "a", "i", some "100", none, some 10, true, false, 0, 0⟩ ⟨5, false⟩
      (by decide) rfl (by decide)⟩

/-- Claim C4: recording twice under one (strategy_id, telegram_message_id)
key, starting from a table with no row for that key, leaves exactly one row
for the key; the second write overwrites raw_message, parsed_payload, status,
error and processed_at with its own values, while received_at (and the id
and channel_id) keep the values of the first write. -/
theorem record_signal_second_write_wins (tbl : List SignalRow) (f1 f2 sid : Nat)
    (cid1 cid2 : String) (mid : Int) (raw1 raw2 : Option String)
    (p1 p2 : Payload) (stat1 stat2 : String) (e1 e2 : Option String)
    (rc1 rc2 pr1 pr2 : Nat)
    (hfresh : ∀ r ∈ tbl, ¬(r.strategy_id = sid ∧ r.telegram_message_id = mid)) :
    (record_signal (record_signal tbl f1 sid cid1 mid raw1 p1 stat1 e1 rc1 pr1)
        f2 sid cid2 mid raw2 p2 stat2 e2 rc2 pr2).filter
      (fun r => r.strategy_id == sid && r.telegram_message_id == mid) =
    [⟨f1, sid, cid1, mid, raw2, p2, stat2, e2, rc1, pr2⟩] := by
  have hany : tbl.any (fun r =>
      r.strategy_id == sid && r.telegram_message_id == mid) = false := by
    rw [List.any_eq_false]
    intro r hr hkey
    exact hfresh r hr (by simpa using hkey)
  have h1 : record_signal tbl f1 sid cid1 mid raw1 p1 stat1 e1 rc1 pr1 =
      tbl ++ [⟨f1, sid, cid1, mid, raw1, p1, stat1, e1, rc1, pr1⟩] := by
    simp [record_signal, hany]
  rw [h1]
  have hany2 : (tbl ++
      [(⟨f1, sid, cid1, mid, raw1, p1, stat1, e1, rc1, pr1⟩ : SignalRow)]).any
      (fun r => r.strategy_id == sid && r.telegram_message_id == mid) = true := by
    simp [List.any_append]
  rw [record_signal, if_pos hany2, List.map_append]
  have hmap : tbl.map (fun r =>
      if r.strategy_id == sid && r.telegram_message_id == mid then
        { r with raw_message := raw2, parsed_payload := p2, status := stat2,
                 error := e2, processed_at := pr2 }
      else r) = tbl := by
    have := List.map_congr_left (l := tbl)
      (f := fun r : SignalRow =>
        if r.strategy_id == sid && r.telegram_message_id == mid then
          { r with raw_message := raw2, parsed_payload := p2, status := stat2,
                   error := e2, processed_at := pr2 }
        else r) (g := id) ?_
    · simpa using this
    · intro r hr
      have hnk : ¬(r.strategy_id == sid && r.telegram_message_id == mid) = true := by
        intro hkey
        exact hfresh r hr (by simpa using hkey)
      simp [hnk]
  rw [hmap, List.filter_append]
  have hftbl : tbl.filter (fun r =>
      r.strategy_id == sid && r.telegram_message_id == mid) = [] := by
    rw [List.filter_eq_nil_iff]
    intro r hr hkey
    exact hfresh r hr (by simpa using hkey)
  rw [hftbl]
  simp

/-- Witness for C4 on the empty table: the surviving row mixes the two
writes exactly as the claim describes. -/
theorem record_signal_second_write_wins_witness :
    (record_signal
        (record_signal [] 1 3 "a" 9 (some "r1") [("k", .str "v")] "parsed" none
          100 100)
        2 3 "b" 9 (some "r2") [("q", .str "w")] "failed" (some "boom") 200 200).filter
      (fun r => r.strategy_id == 3 && r.telegram_message_id == 9) =
    [⟨1, 3, "a", 9, some "r2", [("q", .str "w")], "failed", some "boom", 100, 200⟩] :=
  record_signal_second_write_wins [] 1 2 3 "a" "b" 9 (some "r1") (some "r2")
    [("k", .str "v")] [("q", .str "w")] "parsed" "failed" none (some "boom")
    100 200 100 200 (by simp)

/-- Claim C5: when the parser raises on a job, processing still stores a
signal with status failed, the stringified cause as its error, and the fixed
fallback payload; the embedding is a total function, so the error never
escapes to the worker, and the stored row survives the purge that follows
because its processed_at is not below the cutoff (the cutoff the code
computes lies a full retention window in the past). -/
theorem process_job_failure_stores_fallback (parse : String → Except String Payload)
    (tbl : List SignalRow) (freshId : Nat) (job : SignalJob)
    (processedAt cutoff : Nat) (e : String)
    (hfail : parse (job.raw_message.getD "") = .error e)
    (hret : cutoff ≤ processedAt) :
    ∃ r ∈ process_job parse tbl freshId job processedAt cutoff,
      r.strategy_id = job.strategy_id ∧
      r.telegram_message_id = job.telegram_message_id ∧
      r.status = "failed" ∧ r.error = some e ∧
      r.parsed_payload = fallback_payload e := by
  have hkeep : ¬ processedAt < cutoff := Nat.not_lt.mpr hret
  simp only [process_job, hfail]
  by_cases hany : tbl.any (fun r =>
      r.strategy_id == job.strategy_id &&
        r.telegram_message_id == job.telegram_message_id) = true
  · obtain ⟨r0, hr0, hkey⟩ := List.any_eq_true.mp hany
    refine ⟨({ r0 with raw_message := job.raw_message
                       parsed_payload := fallback_payload e
                       status := "failed"
                       error := some e
                       processed_at := processedAt } : SignalRow), ?_, ?_⟩
    · simp only [purge_signals_older_than, record_signal, hany, if_true,
        List.mem_filter]
      constructor
      · rw [List.mem_map]
        exact ⟨r0, hr0, by simp [hkey]⟩
      · simp [hkeep]
    · have hk := hkey
      simp only [Bool.and_eq_true, beq_iff_eq] at hk
      simp [hk.1, hk.2]
  · refine ⟨⟨freshId, job.strategy_id, job.channel_id, job.telegram_message_id,
        job.raw_message, fallback_payload e, "failed", some e, job.received_at,
        processedAt⟩, ?_, by simp⟩
    have hany' : tbl.any (fun r =>
        r.strategy_id == job.strategy_id &&
          r.telegram_message_id == job.telegram_message_id) = false := by
      simpa using hany
    simp only [purge_signals_older_than, record_signal, hany', List.mem_filter]
    constructor
    · simp
    · simp [hkeep]

/-- A parser that always raises. -/
def failParser : String → Except String Payload := fun _ => .error "boom"

/-- A concrete job for the C5 witness. -/
def jobC : SignalJob := ⟨4, "100", 9, some "msg", 50⟩

/-- Witness for C5: processing jobC with the always-failing parser stores a
failed signal carrying the fallback payload. -/
theorem process_job_failure_stores_fallback_witness :
    (10 : Nat) ≤ 60 ∧
    ∃ r ∈ process_job failParser [] 1 jobC 60 10,
      r.strategy_id = jobC.strategy_id ∧
      r.telegram_message_id = jobC.telegram_message_id ∧
      r.status = "failed" ∧ r.error = some "boom" ∧
      r.parsed_payload = fallback_payload "boom" :=
  ⟨by decide,
    process_job_failure_stores_fallback failParser [] 1 jobC 60 10 "boom" rfl
      (by decide)⟩

/-- Claim C10: pause on an existing strategy that is not active succeeds,
sets is_paused and leaves is_active false: pause_strategy checks no activity
precondition, so the state with is_active false and is_paused true is
reachable through the public interface. The hypotheses say the cache and
store agree (as every reachable state does) and that the strategy is found
inactive and unpaused. -/
theorem pause_inactive_strategy_succeeds (st : RegistryState) (sid : Nat)
    (s : Strategy) (now : Nat)
    (hsync : st.strategies = st.store)
    (hfind : st.strategies.find? (fun r => r.id == sid) = some s)
    (hact : s.is_active = false) (hpau : s.is_paused = false) :
    (pause_strategy st sid now).2 = none ∧
    ((pause_strategy st sid now).1.strategies.find? (fun r => r.id == sid)) =
      some { s with is_paused := true, updated_at := now } ∧
    ({ s with is_paused := true, updated_at := now } : Strategy).is_active = false := by
  have hsid : s.id = sid := by
    have := List.find?_some hfind
    simpa using this
  subst hsid
  have hmem : s ∈ st.strategies := List.mem_of_find?_eq_some hfind
  have hg : ∀ r : Strategy,
      ((fun r : Strategy => if r.id == s.id then
        applyStrategyUpdate r { is_paused := some true } now else r) r).id = r.id := by
    intro r
    by_cases h : (r.id == s.id) = true <;> simp [h, applyStrategyUpdate]
  have hupd : update_strategy st.store s.id { is_paused := some true } now =
      .ok (st.store.map (fun r => if r.id == s.id then
          applyStrategyUpdate r { is_paused := some true } now else r),
        applyStrategyUpdate s { is_paused := some true } now) := by
    rw [update_strategy]
    have hh : ({ is_paused := some true } : StrategyUpdate).hasUpdates = true := rfl
    rw [if_pos hh, find?_id_of_map _ hg, ← hsync, hfind]
    simp
  simp only [pause_strategy, require_strategy_locked, hfind, hpau]
  rw [hupd]
  simp only [Bool.false_eq_true, if_false]
  refine ⟨by simp, ?_, by simp [hact]⟩
  simp only [store_strategy_locked]
  have hany : st.strategies.any (fun r =>
      r.id == (applyStrategyUpdate s { is_paused := some true } now).id) = true := by
    rw [List.any_eq_true]
    exact ⟨s, hmem, by simp [applyStrategyUpdate]⟩
  rw [if_pos hany]
  have hg2 : ∀ r : Strategy,
      ((fun r : Strategy =>
        if r.id == (applyStrategyUpdate s { is_paused := some true } now).id
        then applyStrategyUpdate s { is_paused := some true } now else r) r).id = r.id := by
    intro r
    by_cases h : (r.id == (applyStrategyUpdate s { is_paused := some true } now).id) = true
    · simp only [h, if_true]
      have : (applyStrategyUpdate s { is_paused := some true } now).id = r.id := by
        simpa [applyStrategyUpdate] using (beq_iff_eq.mp h).symm
      exact this
    · simp [h]
  rw [find?_id_of_map _ hg2, hfind]
  simp [applyStrategyUpdate]

/-- A synced registry holding one inactive, unpaused strategy. -/
def idleState : RegistryState :=
  ⟨[⟨1, "a", "i", some "100", none, some 0, false, false, 0, 0⟩],
   [⟨1, "a", "i", some "100", none, some 0, false, false, 0, 0⟩], 2, 0⟩

/-- Witness for C10: pausing the inactive strategy of idleState succeeds and
leaves it inactive yet paused. -/
theorem pause_inactive_strategy_succeeds_witness :
    (pause_strategy idleState 1 5).2 = none ∧
    ((pause_strategy idleState 1 5).1.strategies.find? (fun r => r.id == 1)) =
      some ⟨1, "a", "i", some "100", none, some 0, false, true, 0, 5⟩ ∧
    (⟨1, "a", "i", some "100", none, some 0, false, true, 0, 5⟩ : Strategy).is_active
      = false :=
  pause_inactive_strategy_succeeds idleState 1
    ⟨1, "a", "i", some "100", none, some 0, false, false, 0, 0⟩ 5 rfl rfl rfl rfl

/-- When the cache agrees with the store, looking a strategy up never
changes the state: a cache hit reads the cache, and a cache miss is also a
store miss, which raises before any back-fill. -/
theorem require_sync_fst (st : RegistryState) (sid : Nat)
    (h : st.strategies = st.store) :
    (require_strategy_locked st sid).1 = st := by
  unfold require_strategy_locked
  rcases hf : st.strategies.find? (fun r => r.id == sid) with _ | s
  · rw [hf, ← h, hf]
  · rw [hf]

/-- Claim C8: whenever a registry mutation fails with a validation,
not-found, or admission-cap error (or a gateway error), the in-memory
strategy map, the store, and hence the channel index derived from the map
are exactly as before the call: every raise in every operation happens
before the first write. The hypothesis that cache and store agree holds in
every state reachable from an initialised service, since every mutation
writes both. -/
theorem failed_mutation_leaves_state_unchanged (st : RegistryState) (op : RegOp)
    (e : RegErr) (hsync : st.strategies = st.store)
    (herr : (applyOp st op).2 = some e) :
    (applyOp st op).1 = st := by
  revert herr
  cases op with
  | create name ident activate resolve linkNow now =>
    unfold applyOp create_strategy
    dsimp only
    repeat' split
    all_goals intro h
    all_goals first | rfl | simp at h
  | rename sid name now =>
    unfold applyOp rename_strategy
    dsimp only
    rw [require_sync_fst st sid hsync]
    repeat' split
    all_goals intro h
    all_goals first | rfl | simp at h
  | assign sid ident resolve linkNow now =>
    unfold applyOp assign_channel
    dsimp only
    rw [require_sync_fst st sid hsync]
    repeat' split
    all_goals intro h
    all_goals first | rfl | simp at h
  | activate sid now =>
    unfold applyOp activate_strategy
    dsimp only
    rw [require_sync_fst st sid hsync]
    repeat' split
    all_goals intro h
    all_goals first | rfl | simp at h
  | deactivate sid now =>
    unfold applyOp deactivate_strategy
    dsimp only
    rw [require_sync_fst st sid hsync]
    repeat' split
    all_goals intro h
    all_goals first | rfl | simp at h
  | pause sid now =>
    unfold applyOp pause_strategy
    dsimp only
    rw [require_sync_fst st sid hsync]
    repeat' split
    all_goals intro h
    all_goals first | rfl | simp at h
  | resume sid now =>
    unfold applyOp resume_strategy
    dsimp only
    rw [require_sync_fst st sid hsync]
    repeat' split
    all_goals intro h
    all_goals first | rfl | simp at h
  | delete sid =>
    unfold applyOp delete_strategy
    dsimp only
    rw [require_sync_fst st sid hsync]
    repeat' split
    all_goals intro h
    all_goals first | rfl | simp at h

/-- Witness for C8: a rename with a blank name fails with the validation
error and leaves the registry exactly as it was. -/
theorem failed_mutation_leaves_state_unchanged_witness :
    (applyOp idleState (RegOp.rename 1 " " 5)).2 = some RegErr.emptyName ∧
    (applyOp idleState (RegOp.rename 1 " " 5)).1 = idleState :=
  ⟨by decide,
    failed_mutation_leaves_state_unchanged idleState (RegOp.rename 1 " " 5)
      RegErr.emptyName rfl (by decide)⟩
